import Mathlib

/-!
Shallow embedding of `src/plugins/core/skills/temporary-file-management/examples/python-example.py`.

The script is a linear sequence of five demonstrations of temporary-file
handling.  We model the filesystem as an association list from path strings to
file contents plus a list of directory paths, and each demonstration as a pure
function on that state, transliterated line by line from the source.  File
contents are modelled as strings of characters; equality of contents is
byte-for-byte equality for the ASCII literals the script writes.  Fallible
operations (`os.remove` on a missing path) return `Option`/`Except`.
-/

set_option autoImplicit false

/-- Filesystem state: regular files (path, content) and directories.
A path maps to the first matching entry, as on a real filesystem where
paths are unique. -/
structure FS where
  files : List (String × String)
  dirs : List String
deriving Repr, DecidableEq

/-- The empty filesystem. -/
def FS.empty : FS := ⟨[], []⟩

/-- Look a path up in a file table (first match wins). -/
def lookupF : List (String × String) → String → Option String
  | [], _ => none
  | e :: es, p => if e.1 = p then some e.2 else lookupF es p

/-- Remove every entry at path `p` from a file table. -/
def eraseF : List (String × String) → String → List (String × String)
  | [], _ => []
  | e :: es, p => if e.1 = p then eraseF es p else e :: eraseF es p

/-- `open(p, 'w')` followed by a write and close: (re)create the file at `p`
with content `c`. -/
def FS.writeFile (fs : FS) (p c : String) : FS :=
  ⟨(p, c) :: eraseF fs.files p, fs.dirs⟩

/-- `open(p, 'r').read()`: the content at `p`, if the file exists. -/
def FS.readFile (fs : FS) (p : String) : Option String :=
  lookupF fs.files p

/-- Does a regular file exist at `p`? -/
def FS.fileExists (fs : FS) (p : String) : Bool :=
  (lookupF fs.files p).isSome

/-- Does a directory exist at `p`? -/
def FS.dirExists (fs : FS) (p : String) : Bool :=
  decide (p ∈ fs.dirs)

/-- `os.path.exists(p)`: true for files and directories alike. -/
def osPathExists (fs : FS) (p : String) : Bool :=
  fs.fileExists p || fs.dirExists p

/-- `os.remove(p)`: deletes the regular file at `p`; raises
(`none`) when no such file exists. -/
def osRemove (fs : FS) (p : String) : Option FS :=
  if fs.fileExists p then some ⟨eraseF fs.files p, fs.dirs⟩ else none

/-- Unconditional unlink of the file at `p` (used by the runtime's own
cleanup of a `NamedTemporaryFile` created with `delete=True`). -/
def FS.unlink (fs : FS) (p : String) : FS :=
  ⟨eraseF fs.files p, fs.dirs⟩

/-- `mkdtemp`-style directory creation. -/
def FS.mkdir (fs : FS) (d : String) : FS :=
  ⟨fs.files, d :: fs.dirs⟩

/-- Strip a leading character sequence: `stripPre pre l = some rest`
iff `l = pre ++ rest`. -/
def stripPre : List Char → List Char → Option (List Char)
  | [], l => some l
  | _ :: _, [] => none
  | a :: pre, b :: l => if a = b then stripPre pre l else none

/-- `os.path.join(d, n)` for a relative `n`: the path `d ++ "/" ++ n`. -/
def osPathJoin (d n : String) : String :=
  ⟨d.data ++ '/' :: n.data⟩

/-- The name of `p` as a direct child of directory `d`, when it is one. -/
def childName (d p : String) : Option String :=
  match stripPre (d.data ++ ['/']) p.data with
  | some rest => if rest.contains '/' then none else some ⟨rest⟩
  | none => none

/-- `os.listdir(d)`: names of the regular files lying directly inside `d`
(the demo directory contains only regular files). -/
def osListdir (fs : FS) (d : String) : List String :=
  fs.files.filterMap (fun e => childName d e.1)

/-- Is `p` strictly below directory `d`? -/
def isUnder (d p : String) : Bool :=
  (stripPre (d.data ++ ['/']) p.data).isSome

/-- Removal of a directory tree: the directory and everything below it
(the runtime's cleanup of a `TemporaryDirectory` at scope exit). -/
def removeTree (fs : FS) (d : String) : FS :=
  ⟨fs.files.filter (fun e => !isUnder d e.1),
   fs.dirs.filter (fun x => x != d)⟩

/-- `with tempfile.NamedTemporaryFile(...) as f:`  — creates the file,
runs the body (which may finish normally or with an error), and in either
case the runtime deletes the file at scope exit. -/
def withNamedTempFile {α : Type} (fs : FS) (p : String)
    (body : FS → FS × Except String α) : FS × Except String α :=
  let fs1 := fs.writeFile p ""
  let r := body fs1
  (r.1.unlink p, r.2)

/-- `with tempfile.TemporaryDirectory() as temp_dir:` — creates the
directory, runs the body, and in either case the runtime removes the
directory and all contents together at scope exit. -/
def withTempDirectory {α : Type} (fs : FS) (d : String)
    (body : FS → FS × Except String α) : FS × Except String α :=
  let fs1 := fs.mkdir d
  let r := body fs1
  (removeTree r.1 d, r.2)

/-- `if os.path.exists(p): os.remove(p)` — the existence-guarded deletion
idiom of the try/finally cleanups (lines 32-33 and 69-70). -/
def guardedRemove (fs : FS) (p : String) : Option FS :=
  if osPathExists fs p then osRemove fs p else some fs

/-- Content written in Example 1 (line 12). -/
def example1Content : String := "Sample data\nLine 1\nLine 2\n"

/-- Example 1 (lines 10-18): `NamedTemporaryFile(mode='w', delete=True)`,
write known content, flush, read back through a fresh handle on the same
path; the runtime deletes the file at scope exit.  Returns the final
filesystem and the content read back. -/
def example1 (fs : FS) (p : String) : FS × Except String String :=
  withNamedTempFile fs p (fun fs1 =>
    let fs2 := fs1.writeFile p example1Content
    match fs2.readFile p with
    | some c => (fs2, Except.ok c)
    | none => (fs2, Except.error "FileNotFoundError"))

/-- Handle and filesystem events, used to record the order of operations
in Example 2. -/
inductive Ev where
  | create (p : String)
  | close (p : String)
  | openW (p : String)
  | openR (p : String)
  | writeEv (p : String)
  | readEv (p : String)
  | removeIfExists (p : String)
deriving Repr, DecidableEq

/-- Content written in Example 2 (line 27). -/
def example2Content : String := "Manual cleanup example\n"

/-- Example 2 (lines 22-34): `tempfile.NamedTemporaryFile(delete=False,
suffix='.txt').name` creates the file; the file object is never bound, so
CPython finalises it immediately after `.name`, closing the initial handle
(the `Ev.close` right after `Ev.create`).  Then the path is reopened for
writing, reopened for reading, and finally deleted under an existence
guard.  Returns the final filesystem, the content read back, and the
ordered event trace. -/
def example2 (fs : FS) (p : String) : (FS × Option String) × List Ev :=
  let fs1 := fs.writeFile p ""
  let fs2 := fs1.writeFile p example2Content
  let r := fs2.readFile p
  let fs3 := match guardedRemove fs2 p with
             | some fs3 => fs3
             | none => fs2
  ((fs3, r),
   [Ev.create p, Ev.close p, Ev.openW p, Ev.writeEv p, Ev.close p,
    Ev.openR p, Ev.readEv p, Ev.close p, Ev.removeIfExists p])

/-- Name of the `i`-th file of Example 3 (line 43). -/
def fileName (i : Nat) : String := "file" ++ toString i ++ ".txt"

/-- Content of the `i`-th file of Example 3 (line 45). -/
def fileContent (i : Nat) : String := "File " ++ toString i ++ " content\n"

/-- Example 3 (lines 38-50): `TemporaryDirectory()`, write `file{i}.txt`
for `i in range(3)` inside it, `os.listdir` the directory; directory and
contents are removed together at scope exit.  Returns the final
filesystem and the listing. -/
def example3 (fs : FS) (d : String) : FS × Except String (List String) :=
  withTempDirectory fs d (fun fs1 =>
    let fs2 := (List.range 3).foldl
      (fun acc i => acc.writeFile (osPathJoin d (fileName i)) (fileContent i)) fs1
    (fs2, Except.ok (osListdir fs2 d)))

/-- A single quote character, as a string. -/
def quoteStr : String := String.singleton (Char.ofNat 39)

/-- The body written to the temporary script in Example 4 (lines 56-60). -/
def scriptBody : String :=
  "#!/usr/bin/env python3\nimport sys\nprint(f\"Temporary script running with args: \x7bsys.argv[1:]\x7d\")\nsys.exit(0)\n"

/-- Comma-separated tail of `pyListRepr`. -/
def pyListReprTail : List String → String
  | [] => ""
  | a :: rest => ", " ++ quoteStr ++ a ++ quoteStr ++ pyListReprTail rest

/-- Python `repr` of a list of strings, as the generated script's f-string
formats `sys.argv[1:]`. -/
def pyListRepr : List String → String
  | [] => "[]"
  | a :: rest => "[" ++ quoteStr ++ a ++ quoteStr ++ pyListReprTail rest ++ "]"

/-- Semantics of the generated temporary script (lines 56-60): it prints
one line with `sys.argv[1:]` and then calls `sys.exit(0)`, so its captured
standard output is that line and its exit status is 0. -/
def tempScriptRun (args : List String) : String × Nat :=
  ("Temporary script running with args: " ++ pyListRepr args ++ "\n", 0)

/-- Outcome of `subprocess.run` viewed from the parent: either the child
completed (with captured stdout and an exit code) or spawning failed. -/
inductive SpawnOutcome where
  | completed (stdout : String) (exitCode : Nat)
  | spawnFailure (msg : String)
deriving Repr, DecidableEq

/-- Python `str.isspace` characters relevant here. -/
def isWS (c : Char) : Bool :=
  c = ' ' || c = '\n' || c = '\t' || c = '\r'

/-- Python `str.strip()`: drop whitespace from both ends. -/
def pyStrip (s : String) : String :=
  ⟨((s.data.dropWhile isWS).reverse.dropWhile isWS).reverse⟩

/-- A `finally:` block holding the guarded deletion (lines 68-70): the
cleanup runs whether `r` is a success or an error, and the error, if any,
still propagates afterwards. -/
def runFinally (fs : FS) (p : String) (r : Except String String) :
    FS × Except String String :=
  match guardedRemove fs p with
  | some fs2 => (fs2, r)
  | none => (fs, Except.error "cleanup error")

/-- Example 4 (lines 54-70): write `scriptBody` to a temp file
(`delete=False`), then `subprocess.run` it (the `os.chmod` touches only
permission bits, which no claim mentions, so the model does not track
them).  The spawn outcome is a parameter.  A completed child — whatever
its exit code — is not checked: the demo prints `result.stdout.strip()`
and finishes normally.  A spawn failure propagates as an error; the
`finally:` cleanup runs in both cases. -/
def example4 (fs : FS) (p : String) (spawn : SpawnOutcome) :
    FS × Except String String :=
  let fs1 := (fs.writeFile p "").writeFile p scriptBody
  match spawn with
  | SpawnOutcome.completed out _ => runFinally fs1 p (Except.ok (pyStrip out))
  | SpawnOutcome.spawnFailure m => runFinally fs1 p (Except.error m)

/-- Content written in Example 5 (line 76). -/
def example5Content : String := "Binary data example\n"

/-- Example 5 (lines 74-83): `NamedTemporaryFile(delete=False)`, write
binary content, close, check existence, `os.remove` (unguarded), check
existence again.  Returns the final filesystem and the two reported
existence checks; `none` if the unguarded removal raises. -/
def example5 (fs : FS) (p : String) : Option (FS × Bool × Bool) :=
  let fs1 := (fs.writeFile p "").writeFile p example5Content
  let e1 := osPathExists fs1 p
  match osRemove fs1 p with
  | some fs2 => some (fs2, e1, osPathExists fs2 p)
  | none => none

/-- The deletion step of Example 2's `finally:` (lines 32-33): guarded. -/
def cleanup2 (fs : FS) (p : String) : Option FS := guardedRemove fs p

/-- The deletion step of Example 4's `finally:` (lines 69-70): guarded. -/
def cleanup4 (fs : FS) (p : String) : Option FS := guardedRemove fs p

/-- The deletion step of Example 5 (line 82): a bare `os.remove`, with no
existence guard. -/
def cleanup5 (fs : FS) (p : String) : Option FS := osRemove fs p

/-- Split a character sequence into lines at newline characters. -/
def splitLines : List Char → List (List Char)
  | [] => [[]]
  | c :: rest =>
    if c = '\n' then [] :: splitLines rest
    else match splitLines rest with
         | [] => [[c]]
         | h :: t => (c :: h) :: t

/-- The lines of a captured standard-output string. -/
def stdoutLines (s : String) : List String :=
  (splitLines s.data).map (fun l => ⟨l⟩)

/-- Does `sub` occur verbatim inside `s`? -/
def containsSub (s sub : String) : Bool :=
  (List.range (s.data.length + 1)).any
    (fun i => (stripPre sub.data (s.data.drop i)).isSome)

/-- Freshness of a directory path for a filesystem: no existing file lies
below it (what `mkdtemp`'s unique naming guarantees). -/
def freshDir (fs : FS) (d : String) : Prop :=
  ∀ e ∈ fs.files, stripPre (d.data ++ ['/']) e.1.data = none

theorem lookupF_eraseF_self (l : List (String × String)) (p : String) :
    lookupF (eraseF l p) p = none := by
  induction l with
  | nil => rfl
  | cons e es ih =>
    by_cases h : e.1 = p
    · simpa [eraseF, h] using ih
    · simpa [eraseF, h, lookupF] using ih

theorem lookupF_eraseF_none (l : List (String × String)) (p q : String)
    (h : lookupF l p = none) : lookupF (eraseF l q) p = none := by
  induction l with
  | nil => rfl
  | cons e es ih =>
    by_cases h1 : e.1 = p
    · simp [lookupF, h1] at h
    · by_cases h2 : e.1 = q
      · simpa [eraseF, h2] using ih (by simpa [lookupF, h1] using h)
      · simpa [eraseF, h2, lookupF, h1] using ih (by simpa [lookupF, h1] using h)

theorem lookupF_filter_none (l : List (String × String)) (p : String)
    (f : String × String → Bool) (h : lookupF l p = none) :
    lookupF (l.filter f) p = none := by
  induction l with
  | nil => rfl
  | cons e es ih =>
    by_cases h1 : e.1 = p
    · simp [lookupF, h1] at h
    · have h2 := ih (by simpa [lookupF, h1] using h)
      by_cases h3 : f e
      · simpa [List.filter, h3, lookupF, h1] using h2
      · simpa [List.filter, h3] using h2

theorem mem_eraseF {l : List (String × String)} {p : String}
    {e : String × String} (h : e ∈ eraseF l p) : e ∈ l := by
  induction l with
  | nil => simp [eraseF] at h
  | cons a es ih =>
    by_cases h1 : a.1 = p
    · simp [eraseF, h1] at h
      exact List.mem_cons_of_mem a (ih h)
    · simp [eraseF, h1] at h
      rcases h with h | h
      · simp [h]
      · exact List.mem_cons_of_mem a (ih h)

theorem stripPre_append (l r : List Char) : stripPre l (l ++ r) = some r := by
  induction l with
  | nil => rfl
  | cons a l ih => simpa [stripPre] using ih

theorem stripPre_length {ps l r : List Char} (h : stripPre ps l = some r) :
    l.length = ps.length + r.length := by
  induction ps generalizing l with
  | nil =>
    simp [stripPre] at h
    simp [h]
  | cons a ps ih =>
    cases l with
    | nil => simp [stripPre] at h
    | cons b l =>
      by_cases hab : a = b
      · have := ih (by simpa [stripPre, hab] using h)
        simp [this]
        omega
      · simp [stripPre, hab] at h

theorem childName_join (d n : String) (h : n.data.contains '/' = false) :
    childName d (osPathJoin d n) = some n := by
  have e : (osPathJoin d n).data = (d.data ++ ['/']) ++ n.data := by
    simp [osPathJoin]
  unfold childName
  rw [e, stripPre_append]
  show (if n.data.contains '/' = true then none else some (⟨n.data⟩ : String)) = some n
  rw [h]
  simp

theorem childName_none_of_stripPre_none {d p : String}
    (h : stripPre (d.data ++ ['/']) p.data = none) : childName d p = none := by
  unfold childName
  rw [h]

theorem osListdir_eq_nil {d : String} {l : List (String × String)}
    (h : ∀ e ∈ l, childName d e.1 = none) :
    l.filterMap (fun e => childName d e.1) = [] := by
  induction l with
  | nil => rfl
  | cons a l ih =>
    have ha : childName d a.1 = none := h a (List.mem_cons_self a l)
    simp only [List.filterMap_cons, ha]
    exact ih (fun e he => h e (List.mem_cons_of_mem a he))

theorem osPathJoin_ne (d : String) {n1 n2 : String} (h : n1 ≠ n2) :
    osPathJoin d n1 ≠ osPathJoin d n2 := by
  intro he
  apply h
  have hd : d.data ++ '/' :: n1.data = d.data ++ '/' :: n2.data :=
    congrArg String.data he
  have hn : n1.data = n2.data := by
    have := List.append_cancel_left hd
    simpa using this
  exact congrArg String.mk hn

theorem osPathJoin_ne_base (d n : String) : osPathJoin d n ≠ d := by
  intro he
  have h := congrArg (fun s => s.data.length) he
  simp [osPathJoin] at h

theorem eraseF_cons_ne (a c : String) (es : List (String × String)) (p : String)
    (h : a ≠ p) : eraseF ((a, c) :: es) p = (a, c) :: eraseF es p := by
  simp [eraseF, h]

theorem writeFile_readFile (fs : FS) (p c : String) :
    (fs.writeFile p c).readFile p = some c := by
  simp [FS.writeFile, FS.readFile, lookupF]

theorem example3_run (fs : FS) (d : String) (h : freshDir fs d) :
    (example3 fs d).2 = Except.ok ["file2.txt", "file1.txt", "file0.txt"] := by
  have h01 : fileName 0 ≠ fileName 1 := by decide
  have h02 : fileName 0 ≠ fileName 2 := by decide
  have h12 : fileName 1 ≠ fileName 2 := by decide
  show Except.ok (osListdir
    ⟨(osPathJoin d (fileName 2), fileContent 2) ::
      eraseF ((osPathJoin d (fileName 1), fileContent 1) ::
        eraseF ((osPathJoin d (fileName 0), fileContent 0) ::
          eraseF fs.files (osPathJoin d (fileName 0))) (osPathJoin d (fileName 1)))
        (osPathJoin d (fileName 2)), d :: fs.dirs⟩ d) = _
  rw [eraseF_cons_ne _ _ _ _ (osPathJoin_ne d h12)]
  rw [eraseF_cons_ne _ _ _ _ (osPathJoin_ne d h01)]
  rw [eraseF_cons_ne _ _ _ _ (osPathJoin_ne d h02)]
  have hc0 : childName d (osPathJoin d (fileName 0)) = some (fileName 0) :=
    childName_join d (fileName 0) (by decide)
  have hc1 : childName d (osPathJoin d (fileName 1)) = some (fileName 1) :=
    childName_join d (fileName 1) (by decide)
  have hc2 : childName d (osPathJoin d (fileName 2)) = some (fileName 2) :=
    childName_join d (fileName 2) (by decide)
  have hR : List.filterMap (fun e => childName d e.1)
      (eraseF (eraseF (eraseF fs.files (osPathJoin d (fileName 0)))
        (osPathJoin d (fileName 1))) (osPathJoin d (fileName 2))) = [] :=
    osListdir_eq_nil (fun e he =>
      childName_none_of_stripPre_none (h e (mem_eraseF (mem_eraseF (mem_eraseF he)))))
  simp only [osListdir, List.filterMap_cons, hc0, hc1, hc2, hR]
  exact congrArg Except.ok (by decide)

/-- Claim C1: in the temporary-directory demonstration, exactly 3 files are
created inside the temporary directory, named file0.txt, file1.txt and
file2.txt, and the directory enumeration reports exactly these three
entries and no others (up to the unspecified enumeration order of
`os.listdir`). -/
theorem C1_tempdir_listing (fs : FS) (d : String) (h : freshDir fs d) :
    ∃ l, (example3 fs d).2 = Except.ok l ∧
      l.Perm ["file0.txt", "file1.txt", "file2.txt"] :=
  ⟨["file2.txt", "file1.txt", "file0.txt"], example3_run fs d h, by decide⟩

theorem C1_witness :
    ∃ l, (example3 FS.empty "/tmp/demo").2 = Except.ok l ∧
      l.Perm ["file0.txt", "file1.txt", "file2.txt"] :=
  C1_tempdir_listing FS.empty "/tmp/demo" (by simp [freshDir, FS.empty])

/-- Claim C2: spawned with the arguments arg1 and arg2, the generated
temporary script produces captured standard output containing a line in
which both arguments appear verbatim, and exits with status 0. -/
theorem C2_script_args_output :
    (∃ line ∈ stdoutLines (tempScriptRun ["arg1", "arg2"]).1,
       containsSub line "arg1" = true ∧ containsSub line "arg2" = true) ∧
    (tempScriptRun ["arg1", "arg2"]).2 = 0 :=
  ⟨by decide, rfl⟩

/-- Claim C3: content written to a temporary file and immediately re-read
through a fresh handle on the same path is byte-for-byte identical: in
general for any written content, and in particular for the contents the
script writes in demonstrations 1 and 2. -/
theorem C3_write_read_roundtrip :
    (∀ (fs : FS) (p c : String), (fs.writeFile p c).readFile p = some c) ∧
    (∀ (fs : FS) (p : String), (example1 fs p).2 = Except.ok example1Content) ∧
    (∀ (fs : FS) (p : String), (example2 fs p).1.2 = some example2Content) := by
  refine ⟨writeFile_readFile, ?_, ?_⟩
  · intro fs p
    simp [example1, withNamedTempFile, FS.writeFile, FS.readFile, lookupF]
  · intro fs p
    simp [example2, FS.writeFile, FS.readFile, lookupF]

/-- Claim C4: the existence-guarded manual-delete cleanup step (the
try/finally deletion of demonstrations 2 and 4) never raises, and running
it a second time on the same path returns the same filesystem state: it is
idempotent, because deletion is skipped when the existence check fails. -/
theorem C4_cleanup_idempotent (fs : FS) (p : String) (h : p ∉ fs.dirs) :
    ∃ fs1, cleanup2 fs p = some fs1 ∧ cleanup2 fs1 p = some fs1 ∧
      cleanup4 fs p = some fs1 ∧ cleanup4 fs1 p = some fs1 := by
  by_cases hf : (lookupF fs.files p).isSome
  · refine ⟨⟨eraseF fs.files p, fs.dirs⟩, ?_, ?_, ?_, ?_⟩ <;>
      simp [cleanup2, cleanup4, guardedRemove, osPathExists, FS.fileExists,
        FS.dirExists, osRemove, hf, h, lookupF_eraseF_self]
  · refine ⟨fs, ?_, ?_, ?_, ?_⟩ <;>
      simp [cleanup2, cleanup4, guardedRemove, osPathExists, FS.fileExists,
        FS.dirExists, osRemove, hf, h]

theorem C4_witness :
    ∃ fs1, cleanup2 ⟨[("/tmp/m.txt", "x")], []⟩ "/tmp/m.txt" = some fs1 ∧
      cleanup2 fs1 "/tmp/m.txt" = some fs1 ∧
      cleanup4 ⟨[("/tmp/m.txt", "x")], []⟩ "/tmp/m.txt" = some fs1 ∧
      cleanup4 fs1 "/tmp/m.txt" = some fs1 :=
  C4_cleanup_idempotent ⟨[("/tmp/m.txt", "x")], []⟩ "/tmp/m.txt" (by decide)

/-- Claim C5: each scoped temporary resource no longer exists once its
owning scope exits.  The first two parts state this for the runtime scope
guards themselves, for every body — whether it finishes normally or with
an error, the temp file (resp. temp directory) is gone afterwards; the
last two parts instantiate this to demonstrations 1 and 3. -/
theorem C5_scope_exit_removal :
    (∀ (α : Type) (fs : FS) (p : String) (body : FS → FS × Except String α),
       ((withNamedTempFile fs p body).1).fileExists p = false) ∧
    (∀ (α : Type) (fs : FS) (d : String) (body : FS → FS × Except String α),
       ((withTempDirectory fs d body).1).dirExists d = false) ∧
    (∀ (fs : FS) (p : String), p ∉ fs.dirs →
       osPathExists ((example1 fs p).1) p = false) ∧
    (∀ (fs : FS) (d : String), lookupF fs.files d = none →
       osPathExists ((example3 fs d).1) d = false) := by
  refine ⟨?_, ?_, ?_, ?_⟩
  · intro α fs p body
    simp [withNamedTempFile, FS.unlink, FS.fileExists, lookupF_eraseF_self]
  · intro α fs d body
    simp [withTempDirectory, removeTree, FS.dirExists, List.mem_filter]
  · intro fs p h
    simp [example1, withNamedTempFile, FS.writeFile, FS.readFile, lookupF,
      FS.unlink, osPathExists, FS.fileExists, FS.dirExists, lookupF_eraseF_self, h]
  · intro fs d h
    have l0 : lookupF (eraseF fs.files (osPathJoin d (fileName 0))) d = none :=
      lookupF_eraseF_none _ _ _ h
    have l1 : lookupF ((osPathJoin d (fileName 0), fileContent 0) ::
        eraseF fs.files (osPathJoin d (fileName 0))) d = none := by
      simp [lookupF, osPathJoin_ne_base d (fileName 0), l0]
    have l2 : lookupF ((osPathJoin d (fileName 1), fileContent 1) ::
        eraseF ((osPathJoin d (fileName 0), fileContent 0) ::
          eraseF fs.files (osPathJoin d (fileName 0))) (osPathJoin d (fileName 1))) d = none := by
      simp [lookupF, osPathJoin_ne_base d (fileName 1), lookupF_eraseF_none _ _ _ l1]
    have l3 : lookupF ((osPathJoin d (fileName 2), fileContent 2) ::
        eraseF ((osPathJoin d (fileName 1), fileContent 1) ::
          eraseF ((osPathJoin d (fileName 0), fileContent 0) ::
            eraseF fs.files (osPathJoin d (fileName 0))) (osPathJoin d (fileName 1)))
          (osPathJoin d (fileName 2))) d = none := by
      simp [lookupF, osPathJoin_ne_base d (fileName 2), lookupF_eraseF_none _ _ _ l2]
    show osPathExists (removeTree
      ⟨(osPathJoin d (fileName 2), fileContent 2) ::
        eraseF ((osPathJoin d (fileName 1), fileContent 1) ::
          eraseF ((osPathJoin d (fileName 0), fileContent 0) ::
            eraseF fs.files (osPathJoin d (fileName 0))) (osPathJoin d (fileName 1)))
          (osPathJoin d (fileName 2)), d :: fs.dirs⟩ d) d = false
    simp [removeTree, osPathExists, FS.fileExists, FS.dirExists,
      lookupF_filter_none _ _ _ l3, List.mem_filter]

theorem C5_witness :
    ((withNamedTempFile FS.empty "/tmp/a.txt"
        (fun fs => (fs, Except.ok "r"))).1).fileExists "/tmp/a.txt" = false ∧
    ((withTempDirectory FS.empty "/tmp/dd"
        (fun fs => (fs, Except.ok "r"))).1).dirExists "/tmp/dd" = false ∧
    osPathExists ((example1 FS.empty "/tmp/a.txt").1) "/tmp/a.txt" = false ∧
    osPathExists ((example3 FS.empty "/tmp/dd").1) "/tmp/dd" = false :=
  ⟨C5_scope_exit_removal.1 String FS.empty "/tmp/a.txt" _,
   C5_scope_exit_removal.2.1 String FS.empty "/tmp/dd" _,
   C5_scope_exit_removal.2.2.1 FS.empty "/tmp/a.txt" (by decide),
   C5_scope_exit_removal.2.2.2 FS.empty "/tmp/dd" (by decide)⟩

/-- Claim C6: in demonstration 5 the existence check before the explicit
deletion reports true and the one after the deletion reports false. -/
theorem C6_exists_before_after (fs : FS) (p : String) (h : p ∉ fs.dirs) :
    ∃ fs2, example5 fs p = some (fs2, true, false) := by
  refine ⟨⟨eraseF ((fs.writeFile p "").writeFile p example5Content).files p, fs.dirs⟩, ?_⟩
  simp [example5, osRemove, osPathExists, FS.fileExists, FS.dirExists,
    FS.writeFile, lookupF, lookupF_eraseF_self, h]

theorem C6_witness :
    ∃ fs2, example5 FS.empty "/tmp/b.bin" = some (fs2, true, false) :=
  C6_exists_before_after FS.empty "/tmp/b.bin" (by decide)

/-- Claim C7, counterexample: not every explicit deletion in the script is
wrapped in an existence check.  The deletion step of demonstration 5
(line 82) is a bare `os.remove`: run where the path is absent it raises,
while the guarded deletion step of demonstration 2 run in the same state
succeeds by skipping — so the demonstration-5 removal cannot be executing
under an existence guard. -/
theorem C7_counterexample :
    cleanup5 FS.empty "/tmp/gone.txt" = none ∧
    cleanup2 FS.empty "/tmp/gone.txt" = some FS.empty :=
  ⟨rfl, rfl⟩

/-- Claim C7, amended: the deletions in the try/finally cleanups of
demonstrations 2 and 4 are wrapped in existence checks and so never raise;
the deletion in demonstration 5 is unguarded, but it executes in a state
where the file it removes still exists, so that demonstration does not
raise either. -/
theorem C7_guarded_deletion_amended (fs : FS) (p : String) (h : p ∉ fs.dirs) :
    (cleanup2 fs p).isSome = true ∧ (cleanup4 fs p).isSome = true ∧
    (example5 fs p).isSome = true := by
  have hg : (guardedRemove fs p).isSome = true := by
    by_cases hf : (lookupF fs.files p).isSome
    · simp [guardedRemove, osPathExists, FS.fileExists, osRemove, hf]
    · simp [guardedRemove, osPathExists, FS.fileExists, FS.dirExists, osRemove, hf, h]
  refine ⟨hg, hg, ?_⟩
  simp [example5, osRemove, FS.fileExists, FS.writeFile, lookupF]

theorem C7_amended_witness :
    (cleanup2 FS.empty "/tmp/c.txt").isSome = true ∧
    (cleanup4 FS.empty "/tmp/c.txt").isSome = true ∧
    (example5 FS.empty "/tmp/c.txt").isSome = true :=
  C7_guarded_deletion_amended FS.empty "/tmp/c.txt" (by decide)

/-- Claim C8, counterexample: a non-zero child exit status does not make
demonstration 4 raise.  `subprocess.run` is called without `check=True`,
so a child that completed with exit status 1 still lets the demonstration
finish normally, printing the captured output. -/
theorem C8_counterexample :
    (example4 FS.empty "/tmp/script.py" (SpawnOutcome.completed "output line" 1)).2 =
      Except.ok "output line" := rfl

/-- Claim C8, amended: a failure to spawn the child process is not
handled and propagates to the top level of the script; a non-zero exit
status of a successfully spawned child is not checked at all — the
demonstration continues normally for every exit code, printing the
stripped captured standard output. -/
theorem C8_spawn_error_propagation_amended :
    (∀ (fs : FS) (p m : String),
       (example4 fs p (SpawnOutcome.spawnFailure m)).2 = Except.error m) ∧
    (∀ (fs : FS) (p out : String) (c : Nat),
       (example4 fs p (SpawnOutcome.completed out c)).2 = Except.ok (pyStrip out)) := by
  constructor
  · intro fs p m
    simp [example4, runFinally, guardedRemove, osPathExists, FS.fileExists,
      FS.writeFile, lookupF, osRemove]
  · intro fs p out c
    simp [example4, runFinally, guardedRemove, osPathExists, FS.fileExists,
      FS.writeFile, lookupF, osRemove]

/-- Claim C9: in demonstration 2 the initial handle obtained when the
temporary file is created is closed (CPython finalises the unreferenced
file object right after `.name`) strictly before the path is reopened for
writing: in the event trace, a close of the path precedes the open-for-
write of the path. -/
theorem C9_close_before_reopen (fs : FS) (p : String) :
    ∃ i j : Nat, i < j ∧
      ((example2 fs p).2).get? i = some (Ev.close p) ∧
      ((example2 fs p).2).get? j = some (Ev.openW p) :=
  ⟨1, 2, by omega, rfl, rfl⟩

/-- Claim C10: the generated temporary script exits with status 0 for
every argument list it is invoked with, not only for the pair arg1, arg2:
its body unconditionally ends in an exit with status 0 once the print has
succeeded. -/
theorem C10_script_exit_zero (args : List String) : (tempScriptRun args).2 = 0 := rfl
